import Mathlib

/-!
Verification development for the ISOBUS virtual terminal (VT) client of this
repository (`isobus_virtual_terminal_client.hpp`).  The repository ships only
the class header; where the behaviour under scrutiny lives in the missing
implementation file, the corresponding definition is modelled from the
specification (its doc comment says so explicitly) and settled against that
model.  Enumerations, multiplexor codes and structure fields are transcribed
from the header.
-/

namespace VT

/-- The internal state machine state of the VT client (header enum
`StateMachineState`, 17 states). -/
inductive StateMachineState where
  | Disconnected
  | WaitForPartnerVTStatusMessage
  | SendWorkingSetMasterMessage
  | ReadyForObjectPool
  | SendGetMemory
  | WaitForGetMemoryResponse
  | SendGetNumberSoftkeys
  | WaitForGetNumberSoftKeysResponse
  | SendGetTextFontData
  | WaitForGetTextFontDataResponse
  | SendGetHardware
  | WaitForGetHardwareResponse
  | UploadObjectPool
  | SendEndOfObjectPool
  | WaitForEndOfObjectPoolResponse
  | Connected
  | Failed
  deriving DecidableEq, Repr

/-- The different VT versions that a client or server might support (header
enum `VTVersion`). -/
inductive VTVersion where
  | Version2OrOlder
  | Version3
  | Version4
  | Version5
  | Version6
  | ReservedOrUnknown
  deriving DecidableEq, Repr

/-- The various VT server graphics modes (header enum `GraphicMode`). -/
inductive GraphicMode where
  | Monochrome
  | SixteenColour
  | TwoHundredFiftySixColor
  deriving DecidableEq, Repr

/-- The numeric value of each graphics mode, from the header enum. -/
def graphicModeCode : GraphicMode → Nat
  | .Monochrome => 0
  | .SixteenColour => 1
  | .TwoHundredFiftySixColor => 2

/-- The different key activation codes that a button press can generate
(header enum `KeyActivationCode`). -/
inductive KeyActivationCode where
  | ButtonUnlatchedOrReleased
  | ButtonPressedOrLatched
  | ButtonStillHeld
  | ButtonPressAborted
  deriving DecidableEq, Repr

/-- The numeric value of each key activation code, from the header enum. -/
def kacCode : KeyActivationCode → Nat
  | .ButtonUnlatchedOrReleased => 0
  | .ButtonPressedOrLatched => 1
  | .ButtonStillHeld => 2
  | .ButtonPressAborted => 3

/-- States sent with a hide/show object command (header enum
`HideShowObjectCommand`). -/
inductive HideShowObjectCommand where
  | HideObject
  | ShowObject
  deriving DecidableEq, Repr

/-- Numeric value of the hide/show command, from the header enum. -/
def hideShowCode : HideShowObjectCommand → Nat
  | .HideObject => 0
  | .ShowObject => 1

/-- States sent with an enable/disable object command (header enum
`EnableDisableObjectCommand`). -/
inductive EnableDisableObjectCommand where
  | DisableObject
  | EnableObject
  deriving DecidableEq, Repr

/-- Numeric value of the enable/disable command, from the header enum. -/
def enableDisableCode : EnableDisableObjectCommand → Nat
  | .DisableObject => 0
  | .EnableObject => 1

/-- Options of the select input object command (header enum
`SelectInputObjectOptions`). -/
inductive SelectInputObjectOptions where
  | ActivateObjectForDataInput
  | SetFocusToObject
  deriving DecidableEq, Repr

/-- Numeric value of the select input object option, from the header enum. -/
def selectInputObjectOptionCode : SelectInputObjectOptions → Nat
  | .ActivateObjectForDataInput => 0x00
  | .SetFocusToObject => 0xFF

/-- Line directions used when changing an endpoint (header enum
`LineDirection`). -/
inductive LineDirection where
  | TopLeftToBottomRightOfEnclosingVirtualRectangle
  | BottomLeftToTopRightOfEnclosingVirtualRectangle
  deriving DecidableEq, Repr

/-- Numeric value of the line direction, from the header enum. -/
def lineDirectionCode : LineDirection → Nat
  | .TopLeftToBottomRightOfEnclosingVirtualRectangle => 0
  | .BottomLeftToTopRightOfEnclosingVirtualRectangle => 1

/-- The different font sizes (header enum `FontSize`). -/
inductive FontSize where
  | Size6x8
  | Size8x8
  | Size8x12
  | Size12x16
  | Size16x16
  | Size16x24
  | Size24x32
  | Size32x32
  | Size32x48
  | Size48x64
  | Size64x64
  | Size64x96
  | Size96x128
  | Size128x128
  | Size128x192
  deriving DecidableEq, Repr

/-- Numeric value of each font size, from the header enum. -/
def fontSizeCode : FontSize → Nat
  | .Size6x8 => 0
  | .Size8x8 => 1
  | .Size8x12 => 2
  | .Size12x16 => 3
  | .Size16x16 => 4
  | .Size16x24 => 5
  | .Size24x32 => 6
  | .Size32x32 => 7
  | .Size32x48 => 8
  | .Size48x64 => 9
  | .Size64x64 => 10
  | .Size64x96 => 11
  | .Size96x128 => 12
  | .Size128x128 => 13
  | .Size128x192 => 14

/-- Font style options encoded in a font style bitfield (header enum
`FontStyleBits`). -/
inductive FontStyleBits where
  | Bold
  | CrossedOut
  | Underlined
  | Italic
  | Inverted
  | Flashing
  | FlashingHidden
  | ProportionalFontRendering
  deriving DecidableEq, Repr

/-- Bit index of each font style, from the header enum. -/
def fontStyleBit : FontStyleBits → Nat
  | .Bold => 0
  | .CrossedOut => 1
  | .Underlined => 2
  | .Italic => 3
  | .Inverted => 4
  | .Flashing => 5
  | .FlashingHidden => 6
  | .ProportionalFontRendering => 7

/-- The different fill types for an object (header enum `FillType`). -/
inductive FillType where
  | NoFill
  | FillWithLineColor
  | FillWithSpecifiedColorInFillColorAttribute
  | FillWithPatternGivenByFillPatternAttribute
  deriving DecidableEq, Repr

/-- Numeric value of each fill type, from the header enum. -/
def fillTypeCode : FillType → Nat
  | .NoFill => 0
  | .FillWithLineColor => 1
  | .FillWithSpecifiedColorInFillColorAttribute => 2
  | .FillWithPatternGivenByFillPatternAttribute => 3

/-- The types of object pool masks (header enum `MaskType`). -/
inductive MaskType where
  | DataMask
  | AlarmMask
  deriving DecidableEq, Repr

/-- Numeric value of each mask type, from the header enum. -/
def maskTypeCode : MaskType → Nat
  | .DataMask => 1
  | .AlarmMask => 2

/-- The allowable priorities of an alarm mask (header enum
`AlarmMaskPriority`). -/
inductive AlarmMaskPriority where
  | High
  | Medium
  | Low
  deriving DecidableEq, Repr

/-- Numeric value of each alarm mask priority, from the header enum. -/
def alarmMaskPriorityCode : AlarmMaskPriority → Nat
  | .High => 0
  | .Medium => 1
  | .Low => 2

/-- The lock/unlock state of a mask (header enum `MaskLockState`). -/
inductive MaskLockState where
  | UnlockMask
  | LockMask
  deriving DecidableEq, Repr

/-- Numeric value of each mask lock state, from the header enum. -/
def maskLockStateCode : MaskLockState → Nat
  | .UnlockMask => 0
  | .LockMask => 1

/-- The multiplexor byte values for VT commands (header private enum
`Function`, transcribed constructor for constructor). -/
inductive Function where
  | SoftKeyActivationMessage
  | ButtonActivationMessage
  | PointingEventMessage
  | VTSelectInputObjectMessage
  | VTESCMessage
  | VTChangeNumericValueMessage
  | VTChangeActiveMaskMessage
  | VTChangeSoftKeyMaskMessage
  | VTChangeStringValueMessage
  | VTOnUserLayoutHideShowMessage
  | VTControlAudioSignalTerminationMessage
  | ObjectPoolTransferMessage
  | EndOfObjectPoolMessage
  | AuxiliaryAssignmentTypeOneCommand
  | AuxiliaryInputTypeOneStatus
  | PreferredAssignmentCommand
  | AuxiliaryInputTypeTwoMaintenanceMessage
  | AuxiliaryAssignmentTypeTwoCommand
  | AuxiliaryInputStatusTypeTwoEnableCommand
  | AuxiliaryInputTypeTwoStatusMessage
  | AuxiliaryCapabilitiesRequest
  | SelectActiveWorkingSet
  | ESCCommand
  | HideShowObjectCmd
  | EnableDisableObjectCmd
  | SelectInputObjectCommand
  | ControlAudioSignalCommand
  | SetAudioVolumeCommand
  | ChangeChildLocationCommand
  | ChangeSizeCommand
  | ChangeBackgroundColourCommand
  | ChangeNumericValueCommand
  | ChangeEndPointCommand
  | ChangeFontAttributesCommand
  | ChangeLineAttributesCommand
  | ChangeFillAttributesCommand
  | ChangeActiveMaskCommand
  | ChangeSoftKeyMaskCommand
  | ChangeAttributeCommand
  | ChangePriorityCommand
  | ChangeListItemCommand
  | DeleteObjectPoolCommand
  | ChangeStringValueCommand
  | ChangeChildPositionCommand
  | ChangeObjectLabelCommand
  | ChangePolygonPointCommand
  | ChangePolygonScaleCommand
  | GraphicsContextCommand
  | GetAttributeValueMessage
  | SelectColourMapCommand
  | IdentifyVTMessage
  | ExecuteExtendedMacroCommand
  | LockUnlockMaskCommand
  | ExecuteMacroCommand
  | GetMemoryMessage
  | GetSupportedWidecharsMessage
  | GetNumberOfSoftKeysMessage
  | GetTextFontDataMessage
  | GetWindowMaskDataMessage
  | GetSupportedObjectsMessage
  | GetHardwareMessage
  | StoreVersionCommand
  | LoadVersionCommand
  | DeleteVersionCommand
  | ExtendedGetVersionsMessage
  | ExtendedStoreVersionCommand
  | ExtendedLoadVersionCommand
  | ExtendedDeleteVersionCommand
  | GetVersionsMessage
  | GetVersionsResponse
  | UnsupportedVTFunctionMessage
  | VTStatusMessage
  | WorkingSetMaintenanceMessage
  deriving DecidableEq, Repr

/-- The numeric multiplexor byte of each function, from the header enum
`Function` (the header names `HideShowObjectCommand` and
`EnableDisableObjectCommand` collide in Lean with the argument enums, hence
the `Cmd` suffix on those two constructors). -/
def functionCode : Function → Nat
  | .SoftKeyActivationMessage => 0x00
  | .ButtonActivationMessage => 0x01
  | .PointingEventMessage => 0x02
  | .VTSelectInputObjectMessage => 0x03
  | .VTESCMessage => 0x04
  | .VTChangeNumericValueMessage => 0x05
  | .VTChangeActiveMaskMessage => 0x06
  | .VTChangeSoftKeyMaskMessage => 0x07
  | .VTChangeStringValueMessage => 0x08
  | .VTOnUserLayoutHideShowMessage => 0x09
  | .VTControlAudioSignalTerminationMessage => 0x0A
  | .ObjectPoolTransferMessage => 0x11
  | .EndOfObjectPoolMessage => 0x12
  | .AuxiliaryAssignmentTypeOneCommand => 0x20
  | .AuxiliaryInputTypeOneStatus => 0x21
  | .PreferredAssignmentCommand => 0x22
  | .AuxiliaryInputTypeTwoMaintenanceMessage => 0x23
  | .AuxiliaryAssignmentTypeTwoCommand => 0x24
  | .AuxiliaryInputStatusTypeTwoEnableCommand => 0x25
  | .AuxiliaryInputTypeTwoStatusMessage => 0x26
  | .AuxiliaryCapabilitiesRequest => 0x27
  | .SelectActiveWorkingSet => 0x90
  | .ESCCommand => 0x92
  | .HideShowObjectCmd => 0xA0
  | .EnableDisableObjectCmd => 0xA1
  | .SelectInputObjectCommand => 0xA2
  | .ControlAudioSignalCommand => 0xA3
  | .SetAudioVolumeCommand => 0xA4
  | .ChangeChildLocationCommand => 0xA5
  | .ChangeSizeCommand => 0xA6
  | .ChangeBackgroundColourCommand => 0xA7
  | .ChangeNumericValueCommand => 0xA8
  | .ChangeEndPointCommand => 0xA9
  | .ChangeFontAttributesCommand => 0xAA
  | .ChangeLineAttributesCommand => 0xAB
  | .ChangeFillAttributesCommand => 0xAC
  | .ChangeActiveMaskCommand => 0xAD
  | .ChangeSoftKeyMaskCommand => 0xAE
  | .ChangeAttributeCommand => 0xAF
  | .ChangePriorityCommand => 0xB0
  | .ChangeListItemCommand => 0xB1
  | .DeleteObjectPoolCommand => 0xB2
  | .ChangeStringValueCommand => 0xB3
  | .ChangeChildPositionCommand => 0xB4
  | .ChangeObjectLabelCommand => 0xB5
  | .ChangePolygonPointCommand => 0xB6
  | .ChangePolygonScaleCommand => 0xB7
  | .GraphicsContextCommand => 0xB8
  | .GetAttributeValueMessage => 0xB9
  | .SelectColourMapCommand => 0xBA
  | .IdentifyVTMessage => 0xBB
  | .ExecuteExtendedMacroCommand => 0xBC
  | .LockUnlockMaskCommand => 0xBD
  | .ExecuteMacroCommand => 0xBE
  | .GetMemoryMessage => 0xC0
  | .GetSupportedWidecharsMessage => 0xC1
  | .GetNumberOfSoftKeysMessage => 0xC2
  | .GetTextFontDataMessage => 0xC3
  | .GetWindowMaskDataMessage => 0xC4
  | .GetSupportedObjectsMessage => 0xC5
  | .GetHardwareMessage => 0xC7
  | .StoreVersionCommand => 0xD0
  | .LoadVersionCommand => 0xD1
  | .DeleteVersionCommand => 0xD2
  | .ExtendedGetVersionsMessage => 0xD3
  | .ExtendedStoreVersionCommand => 0xD4
  | .ExtendedLoadVersionCommand => 0xD5
  | .ExtendedDeleteVersionCommand => 0xD6
  | .GetVersionsMessage => 0xDF
  | .GetVersionsResponse => 0xE0
  | .UnsupportedVTFunctionMessage => 0xFD
  | .VTStatusMessage => 0xFE
  | .WorkingSetMaintenanceMessage => 0xFF

/-- The command types for graphics context objects (header enum
`GraphicsContextSubCommandID`). -/
inductive GraphicsContextSubCommandID where
  | SetGraphicsCursor
  | MoveGraphicsCursor
  | SetForegroundColor
  | SetBackgroundColor
  | SetLineAttributesObjectID
  | SetFillAttributesObjectID
  | SetFontAttributesObjectID
  | EraseRectangle
  | DrawPoint
  | DrawLine
  | DrawRectangle
  | DrawClosedEllipse
  | DrawPolygon
  | DrawText
  | PanViewport
  | ZoomViewport
  | PanAndZoomViewport
  | ChangeViewportSize
  | DrawVTObject
  | CopyCanvasToPictureGraphic
  | CopyViewportToPictureGraphic
  deriving DecidableEq, Repr

/-- The numeric value of each graphics context sub-command, from the header
enum. -/
def gcSubCommandCode : GraphicsContextSubCommandID → Nat
  | .SetGraphicsCursor => 0x00
  | .MoveGraphicsCursor => 0x01
  | .SetForegroundColor => 0x02
  | .SetBackgroundColor => 0x03
  | .SetLineAttributesObjectID => 0x04
  | .SetFillAttributesObjectID => 0x05
  | .SetFontAttributesObjectID => 0x06
  | .EraseRectangle => 0x07
  | .DrawPoint => 0x08
  | .DrawLine => 0x09
  | .DrawRectangle => 0x0A
  | .DrawClosedEllipse => 0x0B
  | .DrawPolygon => 0x0C
  | .DrawText => 0x0D
  | .PanViewport => 0x0E
  | .ZoomViewport => 0x0F
  | .PanAndZoomViewport => 0x10
  | .ChangeViewportSize => 0x11
  | .DrawVTObject => 0x12
  | .CopyCanvasToPictureGraphic => 0x13
  | .CopyViewportToPictureGraphic => 0x14

/-- The NULL Object ID (header constant `NULL_OBJECT_ID`). -/
def NULL_OBJECT_ID : Nat := 0xFFFF

/-- The max allowable time between VT status messages before the server is
considered offline (header constant `VT_STATUS_TIMEOUT_MS`). -/
def VT_STATUS_TIMEOUT_MS : Nat := 3000

/-- The frequency at which the working set maintenance message is sent
(header constant `WORKING_SET_MAINTENANCE_TIMEOUT_MS`). -/
def WORKING_SET_MAINTENANCE_TIMEOUT_MS : Nat := 1000

/-- Modelled from the spec: §4.1 gives every `Wait*Response` state a default
timeout of 6000 ms.  The constant does not appear in the header (the timeout
logic lives in the implementation file, which is not part of the sample). -/
def RESPONSE_TIMEOUT_MS : Nat := 6000

/-- The different states of an object pool upload process (header enum
`CurrentObjectPoolUploadState`). -/
inductive CurrentObjectPoolUploadState where
  | Uninitialized
  | InProgress
  | Success
  | Failed
  deriving DecidableEq, Repr

/-- The source variant of a registered object pool.  The header stores a
buffer pointer, a vector pointer, a data callback plus a `useDataCallback`
flag inside `ObjectPoolDataStruct`; following the spec design note (§9) the
three mutually exclusive sources are modelled as a tagged variant.  A paged
source carries the declared total size and the application chunk provider
`get(offset, length) → bytes`. -/
inductive PoolSource where
  | contiguous (data : List Nat)
  | dynamicSequence (data : List Nat)
  | paged (totalSize : Nat) (dataCallback : Nat → Nat → List Nat)

/-- Information regarding an object pool upload (header struct
`ObjectPoolDataStruct`: source data, declared version, uploaded flag). -/
structure ObjectPoolDataStruct where
  source : PoolSource
  version : VTVersion
  uploaded : Bool

/-- The declared size of a pool source: the byte count for in-memory
variants, the declared total size for a callback-backed pool (header field
`objectPoolSize`). -/
def declaredSize : PoolSource → Nat
  | .contiguous data => data.length
  | .dynamicSequence data => data.length
  | .paged totalSize _ => totalSize

/-- The mutable state of a `VirtualTerminalClient` instance, transcribed
from the header's private data members.  The two Bool fields
`maintenanceInitializingSent` and `waitStateRetried` are modelled from the
spec (§4.1 heartbeat initializing bit, §4.1 response-timeout single retry):
the header keeps that bookkeeping in the implementation file. -/
structure VTClient where
  state : StateMachineState
  stateMachineTimestamp_ms : Nat
  lastVTStatusTimestamp_ms : Nat
  lastWorkingSetMaintenanceTimestamp_ms : Nat
  maintenanceInitializingSent : Bool
  waitStateRetried : Bool
  activeWorkingSetDataMaskObjectID : Nat
  activeWorkingSetSoftkeyMaskObjectID : Nat
  activeWorkingSetMasterAddress : Nat
  busyCodesBitfield : Nat
  currentCommandFunctionCode : Nat
  connectedVTVersion : Nat
  softKeyXAxisPixels : Nat
  softKeyYAxisPixels : Nat
  numberVirtualSoftkeysPerSoftkeyMask : Nat
  numberPhysicalSoftkeys : Nat
  smallFontSizesBitfield : Nat
  largeFontSizesBitfield : Nat
  fontStylesBitfield : Nat
  supportedGraphicsMode : GraphicMode
  xPixels : Nat
  yPixels : Nat
  hardwareFeaturesBitfield : Nat
  currentObjectPoolState : CurrentObjectPoolUploadState
  objectPools : List ObjectPoolDataStruct
  isClientInitialized : Bool

/-! ## Outbound command codec -/

/-- Little-endian encoding of a 16-bit field (spec §4.3: multi-byte integers
are little-endian). -/
def le16 (v : Nat) : List Nat :=
  [v % 256, v / 256 % 256]

/-- Little-endian encoding of a 32-bit field. -/
def le32 (v : Nat) : List Nat :=
  [v % 256, v / 256 % 256, v / 65536 % 256, v / 16777216 % 256]

/-- The runtime command operations of the client: one constructor per public
`send_*` command whose function code lies in the command block
`[0x90, 0xBE]` of the header's `Function` enum, carrying the arguments the
header declares for the corresponding member function (the `float` zoom
factor of the viewport commands is carried as its raw 32-bit encoding, and
string/polygon payloads as byte lists). -/
inductive RuntimeCommand where
  | selectActiveWorkingSet (nameOfWorkingSetMaster : Nat)
  | escCommand
  | hideShowObject (objectID : Nat) (command : HideShowObjectCommand)
  | enableDisableObject (objectID : Nat) (command : EnableDisableObjectCommand)
  | selectInputObject (objectID : Nat) (option : SelectInputObjectOptions)
  | controlAudioSignal (activations frequency_hz duration_ms offTimeDuration_ms : Nat)
  | setAudioVolume (volume_percent : Nat)
  | changeChildLocation (objectID parentObjectID relativeXPositionChange relativeYPositionChange : Nat)
  | changeSize (objectID newWidth newHeight : Nat)
  | changeBackgroundColour (objectID color : Nat)
  | changeNumericValue (objectID value : Nat)
  | changeEndpoint (objectID width_px height_px : Nat) (direction : LineDirection)
  | changeFontAttributes (objectID color : Nat) (size : FontSize) (fontType styleBitfield : Nat)
  | changeLineAttributes (objectID color width lineArtBitmask : Nat)
  | changeFillAttributes (objectID : Nat) (fill : FillType) (color fillPatternObjectID : Nat)
  | changeActiveMask (workingSetObjectID newActiveMaskObjectID : Nat)
  | changeSoftkeyMask (maskType : MaskType) (dataOrAlarmMaskObjectID newSoftKeyMaskObjectID : Nat)
  | changeAttribute (objectID attributeID value : Nat)
  | changePriority (alarmMaskObjectID : Nat) (priority : AlarmMaskPriority)
  | changeListItem (objectID listIndex newObjectID : Nat)
  | deleteObjectPool
  | changeStringValue (objectID : Nat) (value : List Nat)
  | changeChildPosition (objectID parentObjectID xPosition yPosition : Nat)
  | changeObjectLabel (objectID labelStringObjectID fontType graphicalDesignatorObjectID : Nat)
  | changePolygonPoint (objectID pointIndex newXValue newYValue : Nat)
  | changePolygonScale (objectID widthAttribute heightAttribute : Nat)
  | setGraphicsCursor (objectID xPosition yPosition : Nat)
  | moveGraphicsCursor (objectID xOffset yOffset : Nat)
  | setForegroundColour (objectID color : Nat)
  | setBackgroundColour (objectID color : Nat)
  | setLineAttributesObjectID (objectID lineAttributeObjectID : Nat)
  | setFillAttributesObjectID (objectID fillAttributeObjectID : Nat)
  | setFontAttributesObjectID (objectID fontAttributesObjectID : Nat)
  | eraseRectangle (objectID width height : Nat)
  | drawPoint (objectID xOffset yOffset : Nat)
  | drawLine (objectID xOffset yOffset : Nat)
  | drawRectangle (objectID width height : Nat)
  | drawClosedEllipse (objectID width height : Nat)
  | drawPolygon (objectID : Nat) (points : List (Nat × Nat))
  | drawText (objectID : Nat) (transparent : Bool) (text : List Nat)
  | panViewport (objectID xAttribute yAttribute : Nat)
  | zoomViewport (objectID zoomRaw : Nat)
  | panAndZoomViewport (objectID xAttribute yAttribute zoomRaw : Nat)
  | changeViewportSize (objectID width height : Nat)
  | drawVTObject (graphicsContextObjectID vtObjectID : Nat)
  | copyCanvasToPictureGraphic (graphicsContextObjectID objectID : Nat)
  | copyViewportToPictureGraphic (graphicsContextObjectID objectID : Nat)
  | getAttributeValue (objectID attributeID : Nat)
  | selectColourMapOrPalette (objectID : Nat)
  | executeExtendedMacroCmd (objectID : Nat)
  | lockUnlockMask (lockState : MaskLockState) (objectID timeout_ms : Nat)
  | executeMacroCmd (objectID : Nat)

/-- The header `Function` enum value carried in byte 0 of each runtime
command frame. -/
def commandFunction : RuntimeCommand → Function
  | .selectActiveWorkingSet _ => .SelectActiveWorkingSet
  | .escCommand => .ESCCommand
  | .hideShowObject _ _ => .HideShowObjectCmd
  | .enableDisableObject _ _ => .EnableDisableObjectCmd
  | .selectInputObject _ _ => .SelectInputObjectCommand
  | .controlAudioSignal _ _ _ _ => .ControlAudioSignalCommand
  | .setAudioVolume _ => .SetAudioVolumeCommand
  | .changeChildLocation _ _ _ _ => .ChangeChildLocationCommand
  | .changeSize _ _ _ => .ChangeSizeCommand
  | .changeBackgroundColour _ _ => .ChangeBackgroundColourCommand
  | .changeNumericValue _ _ => .ChangeNumericValueCommand
  | .changeEndpoint _ _ _ _ => .ChangeEndPointCommand
  | .changeFontAttributes _ _ _ _ _ => .ChangeFontAttributesCommand
  | .changeLineAttributes _ _ _ _ => .ChangeLineAttributesCommand
  | .changeFillAttributes _ _ _ _ => .ChangeFillAttributesCommand
  | .changeActiveMask _ _ => .ChangeActiveMaskCommand
  | .changeSoftkeyMask _ _ _ => .ChangeSoftKeyMaskCommand
  | .changeAttribute _ _ _ => .ChangeAttributeCommand
  | .changePriority _ _ => .ChangePriorityCommand
  | .changeListItem _ _ _ => .ChangeListItemCommand
  | .deleteObjectPool => .DeleteObjectPoolCommand
  | .changeStringValue _ _ => .ChangeStringValueCommand
  | .changeChildPosition _ _ _ _ => .ChangeChildPositionCommand
  | .changeObjectLabel _ _ _ _ => .ChangeObjectLabelCommand
  | .changePolygonPoint _ _ _ _ => .ChangePolygonPointCommand
  | .changePolygonScale _ _ _ => .ChangePolygonScaleCommand
  | .setGraphicsCursor _ _ _ => .GraphicsContextCommand
  | .moveGraphicsCursor _ _ _ => .GraphicsContextCommand
  | .setForegroundColour _ _ => .GraphicsContextCommand
  | .setBackgroundColour _ _ => .GraphicsContextCommand
  | .setLineAttributesObjectID _ _ => .GraphicsContextCommand
  | .setFillAttributesObjectID _ _ => .GraphicsContextCommand
  | .setFontAttributesObjectID _ _ => .GraphicsContextCommand
  | .eraseRectangle _ _ _ => .GraphicsContextCommand
  | .drawPoint _ _ _ => .GraphicsContextCommand
  | .drawLine _ _ _ => .GraphicsContextCommand
  | .drawRectangle _ _ _ => .GraphicsContextCommand
  | .drawClosedEllipse _ _ _ => .GraphicsContextCommand
  | .drawPolygon _ _ => .GraphicsContextCommand
  | .drawText _ _ _ => .GraphicsContextCommand
  | .panViewport _ _ _ => .GraphicsContextCommand
  | .zoomViewport _ _ => .GraphicsContextCommand
  | .panAndZoomViewport _ _ _ _ => .GraphicsContextCommand
  | .changeViewportSize _ _ _ => .GraphicsContextCommand
  | .drawVTObject _ _ => .GraphicsContextCommand
  | .copyCanvasToPictureGraphic _ _ => .GraphicsContextCommand
  | .copyViewportToPictureGraphic _ _ => .GraphicsContextCommand
  | .getAttributeValue _ _ => .GetAttributeValueMessage
  | .selectColourMapOrPalette _ => .SelectColourMapCommand
  | .executeExtendedMacroCmd _ => .ExecuteExtendedMacroCommand
  | .lockUnlockMask _ _ _ => .LockUnlockMaskCommand
  | .executeMacroCmd _ => .ExecuteMacroCommand

/-- The numeric function code in byte 0 of each runtime command frame. -/
def commandCode (cmd : RuntimeCommand) : Nat :=
  functionCode (commandFunction cmd)

/-- Pads a frame to 8 bytes with the reserved fill byte 0xFF (spec §4.3:
unused tail bytes are 0xFF). -/
def padFrame (bytes : List Nat) : List Nat :=
  bytes ++ List.replicate (8 - bytes.length) 0xFF

/-- The shared header of every graphics context command frame (spec §4.3:
function 0xB8 in byte 0, the graphics context object ID little-endian in
bytes 1-2, the 1-byte sub-command selector in byte 3). -/
def gcHeader (objectID : Nat) (sub : GraphicsContextSubCommandID) : List Nat :=
  functionCode .GraphicsContextCommand :: le16 objectID ++ [gcSubCommandCode sub]

/-- Modelled from the spec: §4.3 frame layout rule (byte 0 = function code
from the multiplexor taxonomy, little-endian integer fields in the order the
header declares the command's parameters, reserved tail bytes 0xFF, and the
graphics context sub-command selector in byte 3).  The per-command encoder
bodies live in the implementation file, which is not part of the sample. -/
def encodeCommand : RuntimeCommand → List Nat
  | .selectActiveWorkingSet nm => functionCode .SelectActiveWorkingSet ::
      [nm % 256, nm / 256 % 256, nm / 65536 % 256, nm / 16777216 % 256,
       nm / 4294967296 % 256, nm / 1099511627776 % 256, nm / 281474976710656 % 256]
  | .escCommand => padFrame [functionCode .ESCCommand]
  | .hideShowObject objectID command =>
      padFrame (functionCode .HideShowObjectCmd :: le16 objectID ++ [hideShowCode command])
  | .enableDisableObject objectID command =>
      padFrame (functionCode .EnableDisableObjectCmd :: le16 objectID ++ [enableDisableCode command])
  | .selectInputObject objectID option =>
      padFrame (functionCode .SelectInputObjectCommand :: le16 objectID ++ [selectInputObjectOptionCode option])
  | .controlAudioSignal activations frequency_hz duration_ms offTimeDuration_ms =>
      padFrame (functionCode .ControlAudioSignalCommand :: activations ::
        le16 frequency_hz ++ le16 duration_ms ++ le16 offTimeDuration_ms)
  | .setAudioVolume volume_percent =>
      padFrame [functionCode .SetAudioVolumeCommand, volume_percent]
  | .changeChildLocation objectID parentObjectID dx dy =>
      padFrame (functionCode .ChangeChildLocationCommand :: le16 parentObjectID ++ le16 objectID ++ [dx, dy])
  | .changeSize objectID newWidth newHeight =>
      padFrame (functionCode .ChangeSizeCommand :: le16 objectID ++ le16 newWidth ++ le16 newHeight)
  | .changeBackgroundColour objectID color =>
      padFrame (functionCode .ChangeBackgroundColourCommand :: le16 objectID ++ [color])
  | .changeNumericValue objectID value =>
      functionCode .ChangeNumericValueCommand :: le16 objectID ++ 0xFF :: le32 value
  | .changeEndpoint objectID width_px height_px direction =>
      padFrame (functionCode .ChangeEndPointCommand :: le16 objectID ++
        le16 width_px ++ le16 height_px ++ [lineDirectionCode direction])
  | .changeFontAttributes objectID color size fontType styleBitfield =>
      padFrame (functionCode .ChangeFontAttributesCommand :: le16 objectID ++
        [color, fontSizeCode size, fontType, styleBitfield])
  | .changeLineAttributes objectID color width lineArtBitmask =>
      padFrame (functionCode .ChangeLineAttributesCommand :: le16 objectID ++
        color :: width :: le16 lineArtBitmask)
  | .changeFillAttributes objectID fill color fillPatternObjectID =>
      padFrame (functionCode .ChangeFillAttributesCommand :: le16 objectID ++
        fillTypeCode fill :: color :: le16 fillPatternObjectID)
  | .changeActiveMask workingSetObjectID newActiveMaskObjectID =>
      padFrame (functionCode .ChangeActiveMaskCommand :: le16 workingSetObjectID ++ le16 newActiveMaskObjectID)
  | .changeSoftkeyMask maskType dataOrAlarmMaskObjectID newSoftKeyMaskObjectID =>
      padFrame (functionCode .ChangeSoftKeyMaskCommand :: maskTypeCode maskType ::
        le16 dataOrAlarmMaskObjectID ++ le16 newSoftKeyMaskObjectID)
  | .changeAttribute objectID attributeID value =>
      functionCode .ChangeAttributeCommand :: le16 objectID ++ attributeID :: le32 value
  | .changePriority alarmMaskObjectID priority =>
      padFrame (functionCode .ChangePriorityCommand :: le16 alarmMaskObjectID ++ [alarmMaskPriorityCode priority])
  | .changeListItem objectID listIndex newObjectID =>
      padFrame (functionCode .ChangeListItemCommand :: le16 objectID ++ listIndex :: le16 newObjectID)
  | .deleteObjectPool => padFrame [functionCode .DeleteObjectPoolCommand]
  | .changeStringValue objectID value =>
      functionCode .ChangeStringValueCommand :: le16 objectID ++ le16 value.length ++ value
  | .changeChildPosition objectID parentObjectID xPosition yPosition =>
      functionCode .ChangeChildPositionCommand :: le16 parentObjectID ++ le16 objectID ++
        le16 xPosition ++ le16 yPosition
  | .changeObjectLabel objectID labelStringObjectID fontType graphicalDesignatorObjectID =>
      padFrame (functionCode .ChangeObjectLabelCommand :: le16 objectID ++
        le16 labelStringObjectID ++ fontType :: le16 graphicalDesignatorObjectID)
  | .changePolygonPoint objectID pointIndex newXValue newYValue =>
      padFrame (functionCode .ChangePolygonPointCommand :: le16 objectID ++
        pointIndex :: le16 newXValue ++ le16 newYValue)
  | .changePolygonScale objectID widthAttribute heightAttribute =>
      padFrame (functionCode .ChangePolygonScaleCommand :: le16 objectID ++
        le16 widthAttribute ++ le16 heightAttribute)
  | .setGraphicsCursor objectID xPosition yPosition =>
      padFrame (gcHeader objectID .SetGraphicsCursor ++ le16 xPosition ++ le16 yPosition)
  | .moveGraphicsCursor objectID xOffset yOffset =>
      padFrame (gcHeader objectID .MoveGraphicsCursor ++ le16 xOffset ++ le16 yOffset)
  | .setForegroundColour objectID color =>
      padFrame (gcHeader objectID .SetForegroundColor ++ [color])
  | .setBackgroundColour objectID color =>
      padFrame (gcHeader objectID .SetBackgroundColor ++ [color])
  | .setLineAttributesObjectID objectID lineAttributeObjectID =>
      padFrame (gcHeader objectID .SetLineAttributesObjectID ++ le16 lineAttributeObjectID)
  | .setFillAttributesObjectID objectID fillAttributeObjectID =>
      padFrame (gcHeader objectID .SetFillAttributesObjectID ++ le16 fillAttributeObjectID)
  | .setFontAttributesObjectID objectID fontAttributesObjectID =>
      padFrame (gcHeader objectID .SetFontAttributesObjectID ++ le16 fontAttributesObjectID)
  | .eraseRectangle objectID width height =>
      padFrame (gcHeader objectID .EraseRectangle ++ le16 width ++ le16 height)
  | .drawPoint objectID xOffset yOffset =>
      padFrame (gcHeader objectID .DrawPoint ++ le16 xOffset ++ le16 yOffset)
  | .drawLine objectID xOffset yOffset =>
      padFrame (gcHeader objectID .DrawLine ++ le16 xOffset ++ le16 yOffset)
  | .drawRectangle objectID width height =>
      padFrame (gcHeader objectID .DrawRectangle ++ le16 width ++ le16 height)
  | .drawClosedEllipse objectID width height =>
      padFrame (gcHeader objectID .DrawClosedEllipse ++ le16 width ++ le16 height)
  | .drawPolygon objectID points =>
      gcHeader objectID .DrawPolygon ++ [points.length] ++
        points.flatMap (fun p => le16 p.1 ++ le16 p.2)
  | .drawText objectID transparent text =>
      gcHeader objectID .DrawText ++ [if transparent then 1 else 0, text.length] ++ text
  | .panViewport objectID xAttribute yAttribute =>
      padFrame (gcHeader objectID .PanViewport ++ le16 xAttribute ++ le16 yAttribute)
  | .zoomViewport objectID zoomRaw =>
      gcHeader objectID .ZoomViewport ++ le32 zoomRaw
  | .panAndZoomViewport objectID xAttribute yAttribute zoomRaw =>
      gcHeader objectID .PanAndZoomViewport ++ le16 xAttribute ++ le16 yAttribute ++ le32 zoomRaw
  | .changeViewportSize objectID width height =>
      padFrame (gcHeader objectID .ChangeViewportSize ++ le16 width ++ le16 height)
  | .drawVTObject graphicsContextObjectID vtObjectID =>
      padFrame (gcHeader graphicsContextObjectID .DrawVTObject ++ le16 vtObjectID)
  | .copyCanvasToPictureGraphic graphicsContextObjectID objectID =>
      padFrame (gcHeader graphicsContextObjectID .CopyCanvasToPictureGraphic ++ le16 objectID)
  | .copyViewportToPictureGraphic graphicsContextObjectID objectID =>
      padFrame (gcHeader graphicsContextObjectID .CopyViewportToPictureGraphic ++ le16 objectID)
  | .getAttributeValue objectID attributeID =>
      padFrame (functionCode .GetAttributeValueMessage :: le16 objectID ++ [attributeID])
  | .selectColourMapOrPalette objectID =>
      padFrame (functionCode .SelectColourMapCommand :: le16 objectID)
  | .executeExtendedMacroCmd objectID =>
      padFrame (functionCode .ExecuteExtendedMacroCommand :: le16 objectID)
  | .lockUnlockMask lockState objectID timeout_ms =>
      padFrame (functionCode .LockUnlockMaskCommand :: maskLockStateCode lockState ::
        le16 objectID ++ le16 timeout_ms)
  | .executeMacroCmd objectID =>
      padFrame (functionCode .ExecuteMacroCommand :: objectID % 256 :: [])

/-- The result of a `send_*` call: the boolean the member function returns,
the client state after the call, and the frames handed to the network
stack. -/
structure SendResult where
  success : Bool
  client : VTClient
  frames : List (List Nat)

/-- Modelled from the spec: §4.3 guarded operations — every runtime `send_*`
command is a no-op returning failure unless the state machine is
`Connected`; when connected the encoded frame is handed to the network
stack.  The member function bodies live in the implementation file, which is
not part of the sample. -/
def sendCommand (c : VTClient) (cmd : RuntimeCommand) : SendResult :=
  if c.state = StateMachineState.Connected then
    ⟨true, c, [encodeCommand cmd]⟩
  else
    ⟨false, c, []⟩

/-- Header member `send_hide_show_object`, expressed through the guarded
command path. -/
def send_hide_show_object (c : VTClient) (objectID : Nat) (command : HideShowObjectCommand) : SendResult :=
  sendCommand c (.hideShowObject objectID command)

/-- Header member `send_change_numeric_value`, expressed through the guarded
command path. -/
def send_change_numeric_value (c : VTClient) (objectID value : Nat) : SendResult :=
  sendCommand c (.changeNumericValue objectID value)

/-- Header member `send_draw_rectangle`, expressed through the guarded
command path. -/
def send_draw_rectangle (c : VTClient) (objectID width height : Nat) : SendResult :=
  sendCommand c (.drawRectangle objectID width height)

/-- Header member `send_ESC`, expressed through the guarded command path. -/
def send_ESC (c : VTClient) : SendResult :=
  sendCommand c .escCommand

/-- Modelled from the spec: §4.3 — the bring-up messages are driven by the
state machine itself and are exempt from the `Connected` gate.  The working
set master frame is byte 0 = 1 working set member followed by reserved
bytes; its implementation is not part of the sample. -/
def send_working_set_master (c : VTClient) : SendResult :=
  ⟨true, c, [padFrame [0x01]]⟩

/-- Modelled from the spec: bring-up query, exempt from the `Connected`
gate (implementation not part of the sample). -/
def send_get_memory (c : VTClient) (requiredMemory : Nat) : SendResult :=
  ⟨true, c, [padFrame (functionCode .GetMemoryMessage :: 0xFF :: le32 requiredMemory)]⟩

/-- Modelled from the spec: bring-up query, exempt from the `Connected`
gate (implementation not part of the sample). -/
def send_get_number_of_softkeys (c : VTClient) : SendResult :=
  ⟨true, c, [padFrame [functionCode .GetNumberOfSoftKeysMessage]]⟩

/-- Modelled from the spec: bring-up query, exempt from the `Connected`
gate (implementation not part of the sample). -/
def send_get_text_font_data (c : VTClient) : SendResult :=
  ⟨true, c, [padFrame [functionCode .GetTextFontDataMessage]]⟩

/-- Modelled from the spec: bring-up query, exempt from the `Connected`
gate (implementation not part of the sample). -/
def send_get_hardware (c : VTClient) : SendResult :=
  ⟨true, c, [padFrame [functionCode .GetHardwareMessage]]⟩

/-- Modelled from the spec: §4.2 end-of-pool sentinel (multiplexor 0x12,
payload reserved), driven by the state machine and exempt from the
`Connected` gate (implementation not part of the sample). -/
def send_end_of_object_pool (c : VTClient) : SendResult :=
  ⟨true, c, [padFrame [functionCode .EndOfObjectPoolMessage]]⟩

/-! ## State machine timers -/

/-- Modelled from the spec: §3/§4.6(b)/§7 server-liveness check of the
`update()` tick — in `Connected`, a gap of more than `VT_STATUS_TIMEOUT_MS`
since `lastVTStatusTimestamp_ms` means the server is presumed offline and
the state machine falls back to `WaitForPartnerVTStatusMessage`.  The
`update()` body lives in the implementation file, which is not part of the
sample. -/
def checkVTStatusTimeout (c : VTClient) (now : Nat) : VTClient :=
  if c.state = StateMachineState.Connected ∧
      c.lastVTStatusTimestamp_ms + VT_STATUS_TIMEOUT_MS < now then
    { c with state := .WaitForPartnerVTStatusMessage, stateMachineTimestamp_ms := now }
  else
    c

/-- The `Send*` state preceding each `Wait*Response` state of the bring-up
sequence (spec §4.1 transition table; state names from the header enum). -/
def precedingSendState : StateMachineState → Option StateMachineState
  | .WaitForGetMemoryResponse => some .SendGetMemory
  | .WaitForGetNumberSoftKeysResponse => some .SendGetNumberSoftkeys
  | .WaitForGetTextFontDataResponse => some .SendGetTextFontData
  | .WaitForGetHardwareResponse => some .SendGetHardware
  | .WaitForEndOfObjectPoolResponse => some .SendEndOfObjectPool
  | _ => none

/-- Modelled from the spec: §4.1/§7 response timeout — every `Wait*Response`
state expires after `RESPONSE_TIMEOUT_MS`; expiry re-enters the preceding
`Send*` state once, and a second expiry transitions to `Failed`.  The
`update()` body lives in the implementation file, which is not part of the
sample. -/
def waitResponseTimeoutStep (c : VTClient) (now : Nat) : VTClient :=
  match precedingSendState c.state with
  | some resendState =>
      if c.stateMachineTimestamp_ms + RESPONSE_TIMEOUT_MS < now then
        if c.waitStateRetried then
          { c with state := .Failed, stateMachineTimestamp_ms := now }
        else
          { c with state := resendState, stateMachineTimestamp_ms := now,
                   waitStateRetried := true }
      else c
  | none => c

/-! ## Heartbeat scheduler -/

/-- A working set maintenance frame, abstracted to its multiplexor byte and
the initializing bit. -/
structure MaintenanceFrame where
  code : Nat
  initializing : Bool
  deriving DecidableEq, Repr

/-- Modelled from the spec: §4.1 heartbeat — in `Connected`, a working set
maintenance frame is sent once `WORKING_SET_MAINTENANCE_TIMEOUT_MS` has
elapsed since the last one; the first heartbeat after entering `Connected`
carries the initializing bit set, subsequent ones clear it.  The `update()`
body lives in the implementation file, which is not part of the sample. -/
def maintenanceTick (c : VTClient) (now : Nat) : VTClient × Option MaintenanceFrame :=
  if c.state = StateMachineState.Connected ∧
      c.lastWorkingSetMaintenanceTimestamp_ms + WORKING_SET_MAINTENANCE_TIMEOUT_MS ≤ now then
    ({ c with lastWorkingSetMaintenanceTimestamp_ms := now,
              maintenanceInitializingSent := true },
     some ⟨functionCode .WorkingSetMaintenanceMessage, !c.maintenanceInitializingSent⟩)
  else
    (c, none)

/-- Runs `maintenanceTick` over a list of tick times, collecting the
maintenance frames that were emitted together with their emission times. -/
def maintenanceRun (c : VTClient) : List Nat → List (Nat × MaintenanceFrame)
  | [] => []
  | t :: ts =>
      match maintenanceTick c t with
      | (c2, some fr) => (t, fr) :: maintenanceRun c2 ts
      | (c2, none) => maintenanceRun c2 ts

/-! ## Object pool upload pipeline -/

/-- Modelled from the spec: §4.2 — a callback-backed pool is drained by
repeated pulls `get(offset, length)`; each pull requests at most `chunkLen`
bytes (the transport asks for the bytes it needs for the next frame) and
the offsets ascend until `remaining` bytes have been requested. -/
def pagedBytes (f : Nat → Nat → List Nat) (chunkLen offset remaining : Nat) : List Nat :=
  if _h : remaining = 0 ∨ chunkLen = 0 then
    []
  else
    f offset (min chunkLen remaining) ++
      pagedBytes f chunkLen (offset + min chunkLen remaining)
        (remaining - min chunkLen remaining)
termination_by remaining
decreasing_by
  push_neg at _h
  omega

/-- Modelled from the spec: §4.2 source abstraction — the pull operation of
a pool source yields the pool's byte stream: a memory slice for the
in-memory variants, the gathered chunk pulls for a callback-backed pool
(the transport pulls 7 pool bytes per frame, per the header's
`process_internal_object_pool_upload_callback` documentation). -/
def poolBytes : PoolSource → List Nat
  | .contiguous data => data
  | .dynamicSequence data => data
  | .paged totalSize f => pagedBytes f 7 0 totalSize

/-- A pool source is well formed when its chunk provider returns exactly the
requested number of bytes on every pull (spec §3 invariant: the callback's
backing storage stays valid and serves the declared size).  In-memory
variants are always well formed. -/
def pullWellFormed : PoolSource → Prop
  | .contiguous _ => True
  | .dynamicSequence _ => True
  | .paged _ f => ∀ off len, (f off len).length = len

/-- Modelled from the spec: §4.2 — the total payload submitted to the
transport sublayer for one pool upload is the object-pool-transfer
multiplexor followed by the pool bytes; the client prepends the multiplexor
(header documentation of `process_internal_object_pool_upload_callback`),
the application never supplies it. -/
def uploadPayload (src : PoolSource) : List Nat :=
  functionCode .ObjectPoolTransferMessage :: poolBytes src

/-- Modelled from the spec: §4.2/§8.7 — on the transport layer's completion
callback the pool's `uploaded` flag records whether the transport reported
success. -/
def finishUpload (p : ObjectPoolDataStruct) (transportSuccess : Bool) : ObjectPoolDataStruct :=
  { p with uploaded := transportSuccess }

/-! ## Capability and status accessors -/

/-- Modelled from the spec: §4.5 — before `Connected` all accessors return
zero/false/ReservedOrUnknown; after `Connected` they expose the capability
snapshot.  The accessor bodies live in the implementation file, which is not
part of the sample; each accessor below gates the snapshot field it is named
after in the header. -/
def get_softkey_x_axis_pixels (c : VTClient) : Nat :=
  if c.state = StateMachineState.Connected then c.softKeyXAxisPixels else 0

/-- Header accessor `get_softkey_y_axis_pixels`; see
`get_softkey_x_axis_pixels` for the modelling note. -/
def get_softkey_y_axis_pixels (c : VTClient) : Nat :=
  if c.state = StateMachineState.Connected then c.softKeyYAxisPixels else 0

/-- Header accessor `get_number_virtual_softkeys`. -/
def get_number_virtual_softkeys (c : VTClient) : Nat :=
  if c.state = StateMachineState.Connected then c.numberVirtualSoftkeysPerSoftkeyMask else 0

/-- Header accessor `get_number_physical_softkeys`. -/
def get_number_physical_softkeys (c : VTClient) : Nat :=
  if c.state = StateMachineState.Connected then c.numberPhysicalSoftkeys else 0

/-- Header accessor `get_font_size_supported`: tests the small-sizes
bitfield for the first eight enum values and the large-sizes bitfield for
the rest (spec §3 font support bitfields), gated on `Connected`. -/
def get_font_size_supported (c : VTClient) (value : FontSize) : Bool :=
  c.state = StateMachineState.Connected &&
    (if fontSizeCode value < 8 then
      c.smallFontSizesBitfield.testBit (fontSizeCode value)
    else
      c.largeFontSizesBitfield.testBit (fontSizeCode value - 8))

/-- Header accessor `get_font_style_supported`: tests the style bitfield at
the style's bit index, gated on `Connected`. -/
def get_font_style_supported (c : VTClient) (value : FontStyleBits) : Bool :=
  c.state = StateMachineState.Connected &&
    c.fontStylesBitfield.testBit (fontStyleBit value)

/-- Header accessor `get_graphic_mode`: the zero-valued mode before
`Connected`. -/
def get_graphic_mode (c : VTClient) : GraphicMode :=
  if c.state = StateMachineState.Connected then c.supportedGraphicsMode else .Monochrome

/-- Header accessor `get_support_touchscreen_with_pointing_message`:
hardware-features bit 0 (spec §3 bit order), gated on `Connected`. -/
def get_support_touchscreen_with_pointing_message (c : VTClient) : Bool :=
  c.state = StateMachineState.Connected && c.hardwareFeaturesBitfield.testBit 0

/-- Header accessor `get_support_pointing_device_with_pointing_message`:
hardware-features bit 1. -/
def get_support_pointing_device_with_pointing_message (c : VTClient) : Bool :=
  c.state = StateMachineState.Connected && c.hardwareFeaturesBitfield.testBit 1

/-- Header accessor `get_multiple_frequency_audio_output`:
hardware-features bit 2. -/
def get_multiple_frequency_audio_output (c : VTClient) : Bool :=
  c.state = StateMachineState.Connected && c.hardwareFeaturesBitfield.testBit 2

/-- Header accessor `get_has_adjustable_volume_output`: hardware-features
bit 3. -/
def get_has_adjustable_volume_output (c : VTClient) : Bool :=
  c.state = StateMachineState.Connected && c.hardwareFeaturesBitfield.testBit 3

/-- Header accessor `get_support_simultaneous_activation_physical_keys`:
hardware-features bit 4. -/
def get_support_simultaneous_activation_physical_keys (c : VTClient) : Bool :=
  c.state = StateMachineState.Connected && c.hardwareFeaturesBitfield.testBit 4

/-- Header accessor
`get_support_simultaneous_activation_buttons_and_softkeys`:
hardware-features bit 5. -/
def get_support_simultaneous_activation_buttons_and_softkeys (c : VTClient) : Bool :=
  c.state = StateMachineState.Connected && c.hardwareFeaturesBitfield.testBit 5

/-- Header accessor `get_support_drag_operation`: hardware-features
bit 6. -/
def get_support_drag_operation (c : VTClient) : Bool :=
  c.state = StateMachineState.Connected && c.hardwareFeaturesBitfield.testBit 6

/-- Header accessor
`get_support_intermediate_coordinates_during_drag_operations`:
hardware-features bit 7. -/
def get_support_intermediate_coordinates_during_drag_operations (c : VTClient) : Bool :=
  c.state = StateMachineState.Connected && c.hardwareFeaturesBitfield.testBit 7

/-- Header accessor `get_number_x_pixels`. -/
def get_number_x_pixels (c : VTClient) : Nat :=
  if c.state = StateMachineState.Connected then c.xPixels else 0

/-- Header accessor `get_number_y_pixels`. -/
def get_number_y_pixels (c : VTClient) : Nat :=
  if c.state = StateMachineState.Connected then c.yPixels else 0

/-- Decodes the raw version byte reported by the server into the header's
`VTVersion` enum. -/
def vtVersionFromByte (b : Nat) : VTVersion :=
  match b with
  | 2 => .Version2OrOlder
  | 3 => .Version3
  | 4 => .Version4
  | 5 => .Version5
  | 6 => .Version6
  | _ => .ReservedOrUnknown

/-- Header accessor `get_connected_vt_version`: `ReservedOrUnknown` before
`Connected`. -/
def get_connected_vt_version (c : VTClient) : VTVersion :=
  if c.state = StateMachineState.Connected then
    vtVersionFromByte c.connectedVTVersion
  else
    .ReservedOrUnknown

/-! ## Inbound event decode and fanout -/

/-- Modelled from the spec: §4.4 activation codes — the shared decode of the
activation code byte of key, button and pointing events; codes above 3 are
not valid activation codes. -/
def decodeActivationCode : Nat → Option KeyActivationCode
  | 0 => some .ButtonUnlatchedOrReleased
  | 1 => some .ButtonPressedOrLatched
  | 2 => some .ButtonStillHeld
  | 3 => some .ButtonPressAborted
  | _ => none

/-- The typed fields delivered to a key event callback
(header typedef `VTKeyEventCallback`). -/
structure KeyEventInvocation where
  keyEvent : KeyActivationCode
  keyNumber : Nat
  objectID : Nat
  parentObjectID : Nat
  deriving DecidableEq, Repr

/-- Modelled from the spec: §4.4/S5 — decode of a softkey activation frame:
byte 0 is the softkey activation multiplexor, byte 1 the activation code,
byte 2 the key number, bytes 3-4 the object ID (LE), bytes 5-6 the parent
object ID (LE). -/
def decodeSoftkeyFrame (frame : List Nat) : Option KeyEventInvocation :=
  if frame.getD 0 256 = functionCode .SoftKeyActivationMessage then
    match decodeActivationCode (frame.getD 1 256) with
    | some k =>
        some ⟨k, frame.getD 2 0,
              frame.getD 3 0 + 256 * frame.getD 4 0,
              frame.getD 5 0 + 256 * frame.getD 6 0⟩
    | none => none
  else
    none

/-- Modelled from the spec: §4.4 event delivery — the decoded event is
fanned out to every registered callback of the matching kind in
registration order (header `process_softkey_event_callback` /
`process_button_event_callback`); callbacks are abstracted to
identifiers. -/
def fanoutKeyEvent (callbacks : List Nat) (ev : KeyEventInvocation) :
    List (Nat × KeyEventInvocation) :=
  callbacks.map fun cb => (cb, ev)

/-! ## Function code taxonomy -/

/-- Every constructor of the header's `Function` enum. -/
def allFunctions : List Function :=
  [.SoftKeyActivationMessage, .ButtonActivationMessage, .PointingEventMessage,
   .VTSelectInputObjectMessage, .VTESCMessage, .VTChangeNumericValueMessage,
   .VTChangeActiveMaskMessage, .VTChangeSoftKeyMaskMessage,
   .VTChangeStringValueMessage, .VTOnUserLayoutHideShowMessage,
   .VTControlAudioSignalTerminationMessage, .ObjectPoolTransferMessage,
   .EndOfObjectPoolMessage, .AuxiliaryAssignmentTypeOneCommand,
   .AuxiliaryInputTypeOneStatus, .PreferredAssignmentCommand,
   .AuxiliaryInputTypeTwoMaintenanceMessage, .AuxiliaryAssignmentTypeTwoCommand,
   .AuxiliaryInputStatusTypeTwoEnableCommand, .AuxiliaryInputTypeTwoStatusMessage,
   .AuxiliaryCapabilitiesRequest, .SelectActiveWorkingSet, .ESCCommand,
   .HideShowObjectCmd, .EnableDisableObjectCmd, .SelectInputObjectCommand,
   .ControlAudioSignalCommand, .SetAudioVolumeCommand,
   .ChangeChildLocationCommand, .ChangeSizeCommand,
   .ChangeBackgroundColourCommand, .ChangeNumericValueCommand,
   .ChangeEndPointCommand, .ChangeFontAttributesCommand,
   .ChangeLineAttributesCommand, .ChangeFillAttributesCommand,
   .ChangeActiveMaskCommand, .ChangeSoftKeyMaskCommand,
   .ChangeAttributeCommand, .ChangePriorityCommand, .ChangeListItemCommand,
   .DeleteObjectPoolCommand, .ChangeStringValueCommand,
   .ChangeChildPositionCommand, .ChangeObjectLabelCommand,
   .ChangePolygonPointCommand, .ChangePolygonScaleCommand,
   .GraphicsContextCommand, .GetAttributeValueMessage,
   .SelectColourMapCommand, .IdentifyVTMessage, .ExecuteExtendedMacroCommand,
   .LockUnlockMaskCommand, .ExecuteMacroCommand, .GetMemoryMessage,
   .GetSupportedWidecharsMessage, .GetNumberOfSoftKeysMessage,
   .GetTextFontDataMessage, .GetWindowMaskDataMessage,
   .GetSupportedObjectsMessage, .GetHardwareMessage, .StoreVersionCommand,
   .LoadVersionCommand, .DeleteVersionCommand, .ExtendedGetVersionsMessage,
   .ExtendedStoreVersionCommand, .ExtendedLoadVersionCommand,
   .ExtendedDeleteVersionCommand, .GetVersionsMessage, .GetVersionsResponse,
   .UnsupportedVTFunctionMessage, .VTStatusMessage,
   .WorkingSetMaintenanceMessage]

/-- The set of function codes the client defines: the image of the header's
`Function` enum. -/
def clientFunctionCodes : List Nat :=
  allFunctions.map functionCode

/-- The spec's function multiplexor taxonomy (§6 table), transcribed from
the spec's words for comparison with the header enum: the named inbound
event codes 0x00-0x0A, the pool transfer codes 0x11/0x12, 0x90, the command
block 0xA0-0xB7, 0xB8, 0xB9, 0xBA-0xBE, the seven named capability queries
(memory, widechars, softkeys, text font, window mask, supported objects,
hardware), version management 0xD0-0xD6 and 0xDF, 0xE0, 0xFD, 0xFE and
0xFF. -/
def specTaxonomyCodes : List Nat :=
  [0x00, 0x01, 0x02, 0x03, 0x04, 0x05, 0x06, 0x07, 0x08, 0x09, 0x0A,
   0x11, 0x12, 0x90,
   0xA0, 0xA1, 0xA2, 0xA3, 0xA4, 0xA5, 0xA6, 0xA7, 0xA8, 0xA9, 0xAA, 0xAB,
   0xAC, 0xAD, 0xAE, 0xAF, 0xB0, 0xB1, 0xB2, 0xB3, 0xB4, 0xB5, 0xB6, 0xB7,
   0xB8, 0xB9, 0xBA, 0xBB, 0xBC, 0xBD, 0xBE,
   0xC0, 0xC1, 0xC2, 0xC3, 0xC4, 0xC5, 0xC7,
   0xD0, 0xD1, 0xD2, 0xD3, 0xD4, 0xD5, 0xD6, 0xDF, 0xE0, 0xFD, 0xFE, 0xFF]

/-! ## Sample client states used by concrete witnesses -/

/-- A freshly constructed client: inert, capability snapshot zeroed. -/
def initialClient : VTClient :=
  { state := .Disconnected
    stateMachineTimestamp_ms := 0
    lastVTStatusTimestamp_ms := 0
    lastWorkingSetMaintenanceTimestamp_ms := 0
    maintenanceInitializingSent := false
    waitStateRetried := false
    activeWorkingSetDataMaskObjectID := 0
    activeWorkingSetSoftkeyMaskObjectID := 0
    activeWorkingSetMasterAddress := 0
    busyCodesBitfield := 0
    currentCommandFunctionCode := 0
    connectedVTVersion := 0
    softKeyXAxisPixels := 0
    softKeyYAxisPixels := 0
    numberVirtualSoftkeysPerSoftkeyMask := 0
    numberPhysicalSoftkeys := 0
    smallFontSizesBitfield := 0
    largeFontSizesBitfield := 0
    fontStylesBitfield := 0
    supportedGraphicsMode := .Monochrome
    xPixels := 0
    yPixels := 0
    hardwareFeaturesBitfield := 0
    currentObjectPoolState := .Uninitialized
    objectPools := []
    isClientInitialized := false }

/-- A concrete registered pool used by witnesses. -/
def samplePool : ObjectPoolDataStruct :=
  { source := .contiguous [1, 2, 3, 4], version := .Version3, uploaded := false }

/-- A client that has completed bring-up (scenario S1 capability values). -/
def connectedClient : VTClient :=
  { initialClient with
    state := .Connected
    isClientInitialized := true
    connectedVTVersion := 4
    softKeyXAxisPixels := 60
    softKeyYAxisPixels := 32
    numberVirtualSoftkeysPerSoftkeyMask := 6
    numberPhysicalSoftkeys := 6
    smallFontSizesBitfield := 0x1F
    largeFontSizesBitfield := 0x07
    fontStylesBitfield := 0x0F
    supportedGraphicsMode := .SixteenColour
    xPixels := 800
    yPixels := 480
    hardwareFeaturesBitfield := 0x03
    objectPools := [samplePool] }

/-- A client waiting on the get-memory response. -/
def waitMemoryClient : VTClient :=
  { initialClient with state := .WaitForGetMemoryResponse }

/-- A client waiting on the get-memory response after one recorded retry. -/
def waitMemoryRetriedClient : VTClient :=
  { waitMemoryClient with waitStateRetried := true }

/-- A client waiting on the get-hardware response. -/
def waitHardwareClient : VTClient :=
  { initialClient with state := .WaitForGetHardwareResponse }

/-! ## Helper lemmas -/

theorem pagedBytes_length (f : Nat → Nat → List Nat)
    (hf : ∀ off len, (f off len).length = len) (chunkLen : Nat) (hc : chunkLen ≠ 0) :
    ∀ remaining offset, (pagedBytes f chunkLen offset remaining).length = remaining := by
  intro remaining
  induction remaining using Nat.strong_induction_on with
  | _ remaining ih =>
    intro offset
    unfold pagedBytes
    by_cases h0 : remaining = 0 ∨ chunkLen = 0
    · rw [dif_pos h0]
      rcases h0 with h0 | h0
      · simp [h0]
      · exact absurd h0 hc
    · rw [dif_neg h0]
      push_neg at h0
      have hmin : 1 ≤ min chunkLen remaining := by omega
      rw [List.length_append, hf,
        ih (remaining - min chunkLen remaining) (by omega) (offset + min chunkLen remaining)]
      omega

theorem maintenanceTick_emit (c : VTClient) (t : Nat)
    (hc : c.state = StateMachineState.Connected)
    (hdue : c.lastWorkingSetMaintenanceTimestamp_ms + WORKING_SET_MAINTENANCE_TIMEOUT_MS ≤ t) :
    maintenanceTick c t =
      ({ c with lastWorkingSetMaintenanceTimestamp_ms := t,
                maintenanceInitializingSent := true },
       some (MaintenanceFrame.mk (functionCode .WorkingSetMaintenanceMessage)
         (!c.maintenanceInitializingSent))) := by
  unfold maintenanceTick
  rw [if_pos ⟨hc, hdue⟩]

theorem maintenanceTick_skip (c : VTClient) (t : Nat)
    (h : ¬(c.state = StateMachineState.Connected ∧
        c.lastWorkingSetMaintenanceTimestamp_ms + WORKING_SET_MAINTENANCE_TIMEOUT_MS ≤ t)) :
    maintenanceTick c t = (c, none) := by
  unfold maintenanceTick
  rw [if_neg h]

theorem maintenanceRun_cons_emit (c : VTClient) (t : Nat) (ts : List Nat)
    (hc : c.state = StateMachineState.Connected)
    (hdue : c.lastWorkingSetMaintenanceTimestamp_ms + WORKING_SET_MAINTENANCE_TIMEOUT_MS ≤ t) :
    maintenanceRun c (t :: ts) =
      (t, MaintenanceFrame.mk (functionCode .WorkingSetMaintenanceMessage)
        (!c.maintenanceInitializingSent)) ::
      maintenanceRun { c with lastWorkingSetMaintenanceTimestamp_ms := t,
                              maintenanceInitializingSent := true } ts := by
  simp only [maintenanceRun, maintenanceTick_emit c t hc hdue]

theorem maintenanceRun_cons_skip (c : VTClient) (t : Nat) (ts : List Nat)
    (h : ¬(c.state = StateMachineState.Connected ∧
        c.lastWorkingSetMaintenanceTimestamp_ms + WORKING_SET_MAINTENANCE_TIMEOUT_MS ≤ t)) :
    maintenanceRun c (t :: ts) = maintenanceRun c ts := by
  simp only [maintenanceRun, maintenanceTick_skip c t h]

theorem maintenanceRun_codes (ts : List Nat) :
    ∀ c : VTClient, ∀ e ∈ maintenanceRun c ts,
      e.2.code = functionCode Function.WorkingSetMaintenanceMessage := by
  induction ts with
  | nil =>
      intro c e he
      simp [maintenanceRun] at he
  | cons t ts ih =>
      intro c e he
      by_cases h : c.state = StateMachineState.Connected ∧
          c.lastWorkingSetMaintenanceTimestamp_ms + WORKING_SET_MAINTENANCE_TIMEOUT_MS ≤ t
      · rw [maintenanceRun_cons_emit c t ts h.1 h.2] at he
        rcases List.mem_cons.mp he with rfl | hmem
        · rfl
        · exact ih _ e hmem
      · rw [maintenanceRun_cons_skip c t ts h] at he
        exact ih _ e he

theorem maintenanceRun_noinit (ts : List Nat) :
    ∀ c : VTClient, c.maintenanceInitializingSent = true →
      ∀ e ∈ maintenanceRun c ts, e.2.initializing = false := by
  induction ts with
  | nil =>
      intro c _ e he
      simp [maintenanceRun] at he
  | cons t ts ih =>
      intro c hflag e he
      by_cases h : c.state = StateMachineState.Connected ∧
          c.lastWorkingSetMaintenanceTimestamp_ms + WORKING_SET_MAINTENANCE_TIMEOUT_MS ≤ t
      · rw [maintenanceRun_cons_emit c t ts h.1 h.2] at he
        rcases List.mem_cons.mp he with rfl | hmem
        · simp [hflag]
        · exact ih _ rfl e hmem
      · rw [maintenanceRun_cons_skip c t ts h] at he
        exact ih _ hflag e he

theorem maintenanceRun_first_init (ts : List Nat) :
    ∀ c : VTClient, c.maintenanceInitializingSent = false →
      (∀ e ∈ (maintenanceRun c ts).head?, e.2.initializing = true) ∧
      (∀ e ∈ (maintenanceRun c ts).tail, e.2.initializing = false) := by
  induction ts with
  | nil =>
      intro c _
      constructor <;> intro e he <;> simp [maintenanceRun] at he
  | cons t ts ih =>
      intro c hflag
      by_cases h : c.state = StateMachineState.Connected ∧
          c.lastWorkingSetMaintenanceTimestamp_ms + WORKING_SET_MAINTENANCE_TIMEOUT_MS ≤ t
      · rw [maintenanceRun_cons_emit c t ts h.1 h.2]
        constructor
        · intro e he
          simp only [List.head?_cons, Option.mem_def, Option.some.injEq] at he
          rw [← he]
          simp [hflag]
        · intro e he
          simp only [List.tail_cons] at he
          exact maintenanceRun_noinit ts _ rfl e he
      · rw [maintenanceRun_cons_skip c t ts h]
        exact ih c hflag

theorem maintenanceRun_cadence (ts : List Nat) :
    ∀ c : VTClient, c.state = StateMachineState.Connected →
      List.Chain' (fun a b => a < b ∧ b ≤ a + 500) ts →
      (∀ t0 ∈ ts.head?, c.lastWorkingSetMaintenanceTimestamp_ms < t0 ∧
          t0 ≤ c.lastWorkingSetMaintenanceTimestamp_ms + 1500) →
      List.Chain' (fun a b => a + 1000 ≤ b ∧ b ≤ a + 1500)
        (c.lastWorkingSetMaintenanceTimestamp_ms :: (maintenanceRun c ts).map Prod.fst) := by
  induction ts with
  | nil =>
      intro c _ _ _
      simp [maintenanceRun]
  | cons t ts ih =>
      intro c hstate hchain hanchor
      have hanchor_t := hanchor t rfl
      have hnext : ∀ t1 ∈ ts.head?, t < t1 ∧ t1 ≤ t + 500 := by
        intro t1 ht1
        cases ts with
        | nil => simp at ht1
        | cons u us =>
            simp only [List.head?_cons, Option.mem_def, Option.some.injEq] at ht1
            subst ht1
            exact (List.chain'_cons.mp hchain).1
      have hchain_tail : List.Chain' (fun a b => a < b ∧ b ≤ a + 500) ts :=
        hchain.tail
      by_cases hdue : c.lastWorkingSetMaintenanceTimestamp_ms +
          WORKING_SET_MAINTENANCE_TIMEOUT_MS ≤ t
      · rw [maintenanceRun_cons_emit c t ts hstate hdue]
        rw [List.map_cons, List.chain'_cons]
        refine ⟨⟨hdue, hanchor_t.2⟩, ?_⟩
        have hanchor2 : ∀ t1 ∈ ts.head?,
            ({ c with lastWorkingSetMaintenanceTimestamp_ms := t,
                      maintenanceInitializingSent := true } :
              VTClient).lastWorkingSetMaintenanceTimestamp_ms < t1 ∧
            t1 ≤ ({ c with lastWorkingSetMaintenanceTimestamp_ms := t,
                           maintenanceInitializingSent := true } :
              VTClient).lastWorkingSetMaintenanceTimestamp_ms + 1500 := by
          intro t1 ht1
          have h1 := hnext t1 ht1
          refine ⟨h1.1, ?_⟩
          show t1 ≤ t + 1500
          omega
        exact ih { c with lastWorkingSetMaintenanceTimestamp_ms := t,
                          maintenanceInitializingSent := true }
          hstate hchain_tail hanchor2
      · rw [maintenanceRun_cons_skip c t ts (fun hcon => hdue hcon.2)]
        apply ih c hstate hchain_tail
        intro t1 ht1
        have h1 := hnext t1 ht1
        have : t < c.lastWorkingSetMaintenanceTimestamp_ms + 1000 := by
          unfold WORKING_SET_MAINTENANCE_TIMEOUT_MS at hdue
          omega
        exact ⟨by omega, by omega⟩

theorem decodeActivationCode_kacCode (b : Nat) (k : KeyActivationCode)
    (h : decodeActivationCode b = some k) : kacCode k = b := by
  rcases b with _ | _ | _ | _ | b
  · simp only [decodeActivationCode, Option.some.injEq] at h
    subst h
    decide
  · simp only [decodeActivationCode, Option.some.injEq] at h
    subst h
    decide
  · simp only [decodeActivationCode, Option.some.injEq] at h
    subst h
    decide
  · simp only [decodeActivationCode, Option.some.injEq] at h
    subst h
    decide
  · simp [decodeActivationCode] at h

/-! ## Claim theorems -/

/-- C1: every runtime command operation (every `send_*` whose function code
lies in [0x90, 0xBE]) returns false, emits no frame and changes no client
state when the state machine is not `Connected`; the bring-up messages
(working set master, get memory, get number of softkeys, get text font
data, get hardware, end of object pool) are exempt from this gate. -/
theorem command_gating (c : VTClient) (cmd : RuntimeCommand)
    (h : c.state ≠ StateMachineState.Connected) :
    (sendCommand c cmd).success = false ∧
    (sendCommand c cmd).frames = [] ∧
    (sendCommand c cmd).client = c ∧
    0x90 ≤ commandCode cmd ∧ commandCode cmd ≤ 0xBE ∧
    (send_working_set_master c).success = true ∧
    (send_get_memory c 0).success = true ∧
    (send_get_number_of_softkeys c).success = true ∧
    (send_get_text_font_data c).success = true ∧
    (send_get_hardware c).success = true ∧
    (send_end_of_object_pool c).success = true := by
  refine ⟨?_, ?_, ?_, ?_, ?_, rfl, rfl, rfl, rfl, rfl, rfl⟩
  · simp [sendCommand, h]
  · simp [sendCommand, h]
  · simp [sendCommand, h]
  · cases cmd <;> norm_num [commandCode, commandFunction, functionCode]
  · cases cmd <;> norm_num [commandCode, commandFunction, functionCode]

/-- C1 witness: a disconnected client rejects `send_hide_show_object` and
`send_change_numeric_value` without emitting frames. -/
theorem command_gating_witness :
    (send_hide_show_object initialClient 0x1000 .ShowObject).success = false ∧
    (send_hide_show_object initialClient 0x1000 .ShowObject).frames = [] ∧
    (send_change_numeric_value initialClient 0x2000 1234).success = false ∧
    (send_change_numeric_value initialClient 0x2000 1234).frames = [] ∧
    (send_working_set_master initialClient).success = true := by
  have h1 := command_gating initialClient (.hideShowObject 0x1000 .ShowObject) (by decide)
  have h2 := command_gating initialClient (.changeNumericValue 0x2000 1234) (by decide)
  exact ⟨h1.1, h1.2.1, h2.1, h2.2.1, h1.2.2.2.2.2.2.1⟩

/-- C2 counterexample: the outbound frame emitted by `send_ESC` from a
connected client does not carry 0x04 in byte 0 — its multiplexor is the
header's `ESCCommand` code 0x92. -/
theorem esc_outbound_counterexample :
    ((send_ESC connectedClient).frames.headD []).headD 0 = 0x92 ∧
    ¬ ((send_ESC connectedClient).frames.headD []).headD 0 = 0x04 := by
  constructor
  · rfl
  · decide

/-- C2 (amended): the inbound ESC message uses multiplexor 0x04
(`VTESCMessage`), while the outbound ESC emitted by `send_ESC` uses the
header's distinct `ESCCommand` code 0x92. -/
theorem esc_codes (c : VTClient) (h : c.state = StateMachineState.Connected) :
    functionCode Function.VTESCMessage = 0x04 ∧
    functionCode Function.ESCCommand = 0x92 ∧
    (send_ESC c).success = true ∧
    (send_ESC c).frames = [[0x92, 0xFF, 0xFF, 0xFF, 0xFF, 0xFF, 0xFF, 0xFF]] := by
  refine ⟨rfl, rfl, ?_, ?_⟩
  · simp [send_ESC, sendCommand, h]
  · simp only [send_ESC, sendCommand, if_pos h]
    rfl

/-- C2 witness: the amended statement at the concrete connected client. -/
theorem esc_codes_witness :
    (send_ESC connectedClient).frames = [[0x92, 0xFF, 0xFF, 0xFF, 0xFF, 0xFF, 0xFF, 0xFF]] :=
  (esc_codes connectedClient rfl).2.2.2

/-- C3: in `Connected`, once more than `VT_STATUS_TIMEOUT_MS = 3000` ms
have elapsed since the last VT status frame, the next state entered is
`WaitForPartnerVTStatusMessage`, and every registered object pool
descriptor is preserved across the transition. -/
theorem status_timeout_recovery (c : VTClient) (now : Nat)
    (hstate : c.state = StateMachineState.Connected)
    (hgap : c.lastVTStatusTimestamp_ms + VT_STATUS_TIMEOUT_MS < now) :
    (checkVTStatusTimeout c now).state = StateMachineState.WaitForPartnerVTStatusMessage ∧
    (checkVTStatusTimeout c now).objectPools = c.objectPools := by
  unfold checkVTStatusTimeout
  rw [if_pos ⟨hstate, hgap⟩]
  exact ⟨rfl, rfl⟩

/-- C3 witness: a connected client that last saw a status frame at t=0
falls back at t=3001 without dropping its registered pool. -/
theorem status_timeout_recovery_witness :
    (checkVTStatusTimeout connectedClient 3001).state =
      StateMachineState.WaitForPartnerVTStatusMessage ∧
    (checkVTStatusTimeout connectedClient 3001).objectPools = [samplePool] :=
  status_timeout_recovery connectedClient 3001 rfl (by decide)

/-- C4: for every registered pool of declared size S, regardless of source
variant, the payload submitted to the transport sublayer is exactly S + 1
bytes whose first byte is the object-pool-transfer multiplexor 0x11
(prepended by the client), and the post-upload `uploaded` flag is true iff
the transport completion callback reported success. -/
theorem upload_completeness (p : ObjectPoolDataStruct) (transportSuccess : Bool)
    (hwf : pullWellFormed p.source) :
    (uploadPayload p.source).length = declaredSize p.source + 1 ∧
    (uploadPayload p.source).headD 0 = functionCode Function.ObjectPoolTransferMessage ∧
    functionCode Function.ObjectPoolTransferMessage = 0x11 ∧
    ((finishUpload p transportSuccess).uploaded = true ↔ transportSuccess = true) := by
  refine ⟨?_, rfl, rfl, ?_⟩
  · cases hsrc : p.source with
    | contiguous data => simp [uploadPayload, poolBytes, declaredSize]
    | dynamicSequence data => simp [uploadPayload, poolBytes, declaredSize]
    | paged totalSize f =>
        rw [hsrc] at hwf
        simp only [uploadPayload, poolBytes, declaredSize, List.length_cons]
        rw [pagedBytes_length f hwf 7 (by decide) totalSize 0]
  · simp [finishUpload]

/-- C4 witness: a 20-byte callback-backed pool uploads as 21 payload bytes
led by 0x11, and the `uploaded` flag follows the transport result. -/
theorem upload_completeness_witness :
    (uploadPayload (PoolSource.paged 20 (fun _ len => List.replicate len 0xAB))).length = 20 + 1 ∧
    (uploadPayload (PoolSource.paged 20 (fun _ len => List.replicate len 0xAB))).headD 0 = 0x11 ∧
    (finishUpload { source := PoolSource.paged 20 (fun _ len => List.replicate len 0xAB),
                    version := .Version3, uploaded := false } true).uploaded = true := by
  have h := upload_completeness
    { source := PoolSource.paged 20 (fun _ len => List.replicate len 0xAB),
      version := .Version3, uploaded := false } true
    (by intro off len; simp)
  exact ⟨h.1, h.2.1, h.2.2.2.mpr rfl⟩

/-- C5: while `Connected`, working set maintenance frames (function code
0xFF) are emitted with inter-arrival time in [1000, 1500] ms — provided the
`update()` ticks are strictly increasing and at most 500 ms apart — the
first maintenance frame after entering `Connected` has the initializing bit
set, and every subsequent one has it cleared. -/
theorem heartbeat_cadence (c : VTClient) (ts : List Nat)
    (hstate : c.state = StateMachineState.Connected)
    (hfresh : c.maintenanceInitializingSent = false)
    (hticks : List.Chain' (fun a b => a < b ∧ b ≤ a + 500) ts)
    (hanchor : ∀ t0 ∈ ts.head?,
        c.lastWorkingSetMaintenanceTimestamp_ms < t0 ∧
        t0 ≤ c.lastWorkingSetMaintenanceTimestamp_ms + 500) :
    List.Chain' (fun a b => a + 1000 ≤ b ∧ b ≤ a + 1500)
      (c.lastWorkingSetMaintenanceTimestamp_ms :: (maintenanceRun c ts).map Prod.fst) ∧
    (∀ e ∈ maintenanceRun c ts,
      e.2.code = functionCode Function.WorkingSetMaintenanceMessage) ∧
    (∀ e ∈ (maintenanceRun c ts).head?, e.2.initializing = true) ∧
    (∀ e ∈ (maintenanceRun c ts).tail, e.2.initializing = false) := by
  refine ⟨?_, maintenanceRun_codes ts c, (maintenanceRun_first_init ts c hfresh).1,
    (maintenanceRun_first_init ts c hfresh).2⟩
  apply maintenanceRun_cadence ts c hstate hticks
  intro t0 ht0
  have h := hanchor t0 ht0
  exact ⟨h.1, by omega⟩

/-- C5 witness: ticking a freshly connected client every 400 ms emits
heartbeats at 1200 and 2400 ms, the first initializing, the second not. -/
theorem heartbeat_cadence_witness :
    maintenanceRun connectedClient [400, 800, 1200, 1600, 2000, 2400] =
      [(1200, MaintenanceFrame.mk 0xFF true), (2400, MaintenanceFrame.mk 0xFF false)] ∧
    List.Chain' (fun a b => a + 1000 ≤ b ∧ b ≤ a + 1500)
      (connectedClient.lastWorkingSetMaintenanceTimestamp_ms ::
        (maintenanceRun connectedClient [400, 800, 1200, 1600, 2000, 2400]).map Prod.fst) := by
  constructor
  · decide
  · have h := heartbeat_cadence connectedClient [400, 800, 1200, 1600, 2000, 2400]
      rfl rfl (by norm_num [List.chain'_cons, List.chain'_singleton]) ?_
    · exact h.1
    · intro t0 ht0
      simp only [List.head?_cons, Option.mem_def, Option.some.injEq] at ht0
      subst ht0
      decide

/-- C6: every `Wait*Response` bring-up state that sees no response within
`RESPONSE_TIMEOUT_MS = 6000` ms re-enters its preceding `Send*` state and
records the retry; a second expiry (retry already recorded) transitions to
`Failed`. -/
theorem response_timeout_retry (c : VTClient) (now : Nat)
    (resendState : StateMachineState)
    (hwait : precedingSendState c.state = some resendState)
    (hexp : c.stateMachineTimestamp_ms + RESPONSE_TIMEOUT_MS < now) :
    (c.waitStateRetried = false →
      (waitResponseTimeoutStep c now).state = resendState ∧
      (waitResponseTimeoutStep c now).waitStateRetried = true) ∧
    (c.waitStateRetried = true →
      (waitResponseTimeoutStep c now).state = StateMachineState.Failed) := by
  constructor
  · intro hr
    simp only [waitResponseTimeoutStep, hwait, if_pos hexp, hr]
    simp
  · intro hr
    simp only [waitResponseTimeoutStep, hwait, if_pos hexp, hr]
    simp

/-- C6 witness: `WaitForGetMemoryResponse` at t=6001 first resends
`SendGetMemory`, and a second expiry fails the connection; the same holds
for `WaitForGetHardwareResponse`. -/
theorem response_timeout_retry_witness :
    (waitResponseTimeoutStep waitMemoryClient 6001).state =
      StateMachineState.SendGetMemory ∧
    (waitResponseTimeoutStep waitMemoryRetriedClient 6001).state =
      StateMachineState.Failed ∧
    (waitResponseTimeoutStep waitHardwareClient 6001).state =
      StateMachineState.SendGetHardware := by
  refine ⟨?_, ?_, ?_⟩
  · exact ((response_timeout_retry waitMemoryClient
      6001 .SendGetMemory rfl (by decide)).1 rfl).1
  · exact (response_timeout_retry waitMemoryRetriedClient
      6001 .SendGetMemory rfl (by decide)).2 rfl
  · exact ((response_timeout_retry waitHardwareClient
      6001 .SendGetHardware rfl (by decide)).1 rfl).1

/-- C7: in every client state other than `Connected`, every capability and
status accessor returns zero for numeric results, false for boolean results,
the zero-valued graphics mode, and `ReservedOrUnknown` for the VT
version. -/
theorem accessor_gating (c : VTClient) (h : c.state ≠ StateMachineState.Connected) :
    get_softkey_x_axis_pixels c = 0 ∧
    get_softkey_y_axis_pixels c = 0 ∧
    get_number_virtual_softkeys c = 0 ∧
    get_number_physical_softkeys c = 0 ∧
    (∀ v, get_font_size_supported c v = false) ∧
    (∀ v, get_font_style_supported c v = false) ∧
    graphicModeCode (get_graphic_mode c) = 0 ∧
    get_support_touchscreen_with_pointing_message c = false ∧
    get_support_pointing_device_with_pointing_message c = false ∧
    get_multiple_frequency_audio_output c = false ∧
    get_has_adjustable_volume_output c = false ∧
    get_support_simultaneous_activation_physical_keys c = false ∧
    get_support_simultaneous_activation_buttons_and_softkeys c = false ∧
    get_support_drag_operation c = false ∧
    get_support_intermediate_coordinates_during_drag_operations c = false ∧
    get_number_x_pixels c = 0 ∧
    get_number_y_pixels c = 0 ∧
    get_connected_vt_version c = VTVersion.ReservedOrUnknown := by
  refine ⟨?_, ?_, ?_, ?_, fun v => ?_, fun v => ?_, ?_, ?_, ?_, ?_, ?_, ?_, ?_, ?_, ?_,
    ?_, ?_, ?_⟩ <;>
    simp [get_softkey_x_axis_pixels, get_softkey_y_axis_pixels,
      get_number_virtual_softkeys, get_number_physical_softkeys,
      get_font_size_supported, get_font_style_supported, get_graphic_mode,
      graphicModeCode, get_support_touchscreen_with_pointing_message,
      get_support_pointing_device_with_pointing_message,
      get_multiple_frequency_audio_output, get_has_adjustable_volume_output,
      get_support_simultaneous_activation_physical_keys,
      get_support_simultaneous_activation_buttons_and_softkeys,
      get_support_drag_operation,
      get_support_intermediate_coordinates_during_drag_operations,
      get_number_x_pixels, get_number_y_pixels, get_connected_vt_version, h]

/-- C7 witness: a client in `WaitForPartnerVTStatusMessage` reports zeroed
capabilities even though snapshot fields may be populated. -/
theorem accessor_gating_witness :
    get_softkey_x_axis_pixels { connectedClient with
      state := .WaitForPartnerVTStatusMessage } = 0 ∧
    get_number_x_pixels { connectedClient with
      state := .WaitForPartnerVTStatusMessage } = 0 ∧
    get_font_size_supported { connectedClient with
      state := .WaitForPartnerVTStatusMessage } .Size6x8 = false ∧
    get_connected_vt_version { connectedClient with
      state := .WaitForPartnerVTStatusMessage } = VTVersion.ReservedOrUnknown := by
  have h := accessor_gating { connectedClient with
    state := .WaitForPartnerVTStatusMessage } (by decide)
  exact ⟨h.1, h.2.2.2.2.2.2.2.2.2.2.2.2.2.2.2.1, h.2.2.2.2.1 .Size6x8,
    h.2.2.2.2.2.2.2.2.2.2.2.2.2.2.2.2.2⟩

/-- C8: every graphics context command frame carries function code 0xB8 in
byte 0, the graphics context object ID little-endian in bytes 1-2, and the
1-byte sub-command selector in byte 3; in particular, in `Connected`,
`send_draw_rectangle` with object 0x0100, width 40 and height 20 emits
exactly the 8-byte frame B8 00 01 0A 28 00 14 00. -/
theorem graphics_context_encoding (c : VTClient) (objectID width height : Nat)
    (h : c.state = StateMachineState.Connected) :
    (∀ (oid : Nat) (sub : GraphicsContextSubCommandID),
      gcHeader oid sub = [0xB8, oid % 256, oid / 256 % 256, gcSubCommandCode sub]) ∧
    encodeCommand (.drawRectangle objectID width height) =
      [0xB8, objectID % 256, objectID / 256 % 256, 0x0A,
       width % 256, width / 256 % 256, height % 256, height / 256 % 256] ∧
    (send_draw_rectangle c 0x0100 40 20).success = true ∧
    (send_draw_rectangle c 0x0100 40 20).frames =
      [[0xB8, 0x00, 0x01, 0x0A, 0x28, 0x00, 0x14, 0x00]] := by
  refine ⟨fun oid sub => rfl, rfl, ?_, ?_⟩
  · simp [send_draw_rectangle, sendCommand, h]
  · simp only [send_draw_rectangle, sendCommand, if_pos h]
    rfl

/-- C8 witness: the drawn frame at the concrete connected client. -/
theorem graphics_context_encoding_witness :
    (send_draw_rectangle connectedClient 0x0100 40 20).frames =
      [[0xB8, 0x00, 0x01, 0x0A, 0x28, 0x00, 0x14, 0x00]] :=
  (graphics_context_encoding connectedClient 0 0 0 rfl).2.2.2

/-- C9: the activation code encoding shared by softkey, button and pointing
events maps 0 to released/unlatched, 1 to pressed/latched, 2 to held and
3 to aborted, and the `KeyActivationCode` delivered to every registered
callback of a decoded event frame equals the frame's numeric code. -/
theorem activation_code_mapping :
    kacCode KeyActivationCode.ButtonUnlatchedOrReleased = 0 ∧
    kacCode KeyActivationCode.ButtonPressedOrLatched = 1 ∧
    kacCode KeyActivationCode.ButtonStillHeld = 2 ∧
    kacCode KeyActivationCode.ButtonPressAborted = 3 ∧
    decodeActivationCode 0 = some KeyActivationCode.ButtonUnlatchedOrReleased ∧
    decodeActivationCode 1 = some KeyActivationCode.ButtonPressedOrLatched ∧
    decodeActivationCode 2 = some KeyActivationCode.ButtonStillHeld ∧
    decodeActivationCode 3 = some KeyActivationCode.ButtonPressAborted ∧
    (∀ b k, decodeActivationCode b = some k → kacCode k = b) ∧
    (∀ frame ev, decodeSoftkeyFrame frame = some ev →
      ∀ cbs : List Nat, ∀ x ∈ fanoutKeyEvent cbs ev,
        kacCode x.2.keyEvent = frame.getD 1 256) := by
  refine ⟨rfl, rfl, rfl, rfl, rfl, rfl, rfl, rfl, decodeActivationCode_kacCode, ?_⟩
  intro frame ev hdec cbs x hx
  simp only [fanoutKeyEvent] at hx
  rcases List.mem_map.mp hx with ⟨cb, _, rfl⟩
  unfold decodeSoftkeyFrame at hdec
  by_cases h0 : frame.getD 0 256 = functionCode .SoftKeyActivationMessage
  · rw [if_pos h0] at hdec
    cases hk : decodeActivationCode (frame.getD 1 256) with
    | none =>
        rw [hk] at hdec
        simp at hdec
    | some k =>
        rw [hk] at hdec
        simp only [Option.some.injEq] at hdec
        subst hdec
        exact decodeActivationCode_kacCode (frame.getD 1 256) k hk
  · rw [if_neg h0] at hdec
    simp at hdec

/-- C9 witness: decoding the scenario-S5 softkey frame delivers the
pressed/latched code 1 to a registered callback. -/
theorem activation_code_mapping_witness :
    kacCode ((10, KeyEventInvocation.mk .ButtonPressedOrLatched 5 0x1234 0x5678).2.keyEvent) =
      [0x00, 0x01, 0x05, 0x34, 0x12, 0x78, 0x56, 0xFF].getD 1 256 := by
  exact activation_code_mapping.2.2.2.2.2.2.2.2.2
    [0x00, 0x01, 0x05, 0x34, 0x12, 0x78, 0x56, 0xFF]
    (KeyEventInvocation.mk .ButtonPressedOrLatched 5 0x1234 0x5678)
    (by decide) [10, 20]
    (10, KeyEventInvocation.mk .ButtonPressedOrLatched 5 0x1234 0x5678)
    (by decide)

/-- C10: the client's function code enumeration assigns the auxiliary
control codes 0x20 through 0x27 exactly as claimed, each absent from the
spec's multiplexor taxonomy, and the set of codes the client defines is a
strict superset of that taxonomy. -/
theorem auxiliary_function_codes :
    functionCode Function.AuxiliaryAssignmentTypeOneCommand = 0x20 ∧
    functionCode Function.AuxiliaryInputTypeOneStatus = 0x21 ∧
    functionCode Function.PreferredAssignmentCommand = 0x22 ∧
    functionCode Function.AuxiliaryInputTypeTwoMaintenanceMessage = 0x23 ∧
    functionCode Function.AuxiliaryAssignmentTypeTwoCommand = 0x24 ∧
    functionCode Function.AuxiliaryInputStatusTypeTwoEnableCommand = 0x25 ∧
    functionCode Function.AuxiliaryInputTypeTwoStatusMessage = 0x26 ∧
    functionCode Function.AuxiliaryCapabilitiesRequest = 0x27 ∧
    (∀ code ∈ [0x20, 0x21, 0x22, 0x23, 0x24, 0x25, 0x26, 0x27],
      code ∈ clientFunctionCodes ∧ code ∉ specTaxonomyCodes) ∧
    (∀ code ∈ specTaxonomyCodes, code ∈ clientFunctionCodes) ∧
    ∃ code ∈ clientFunctionCodes, code ∉ specTaxonomyCodes := by
  refine ⟨rfl, rfl, rfl, rfl, rfl, rfl, rfl, rfl, by decide, by decide, by decide⟩

/-- C10 witness: the theorem applied at code 0x20 and at taxonomy member
0x90. -/
theorem auxiliary_function_codes_witness :
    ((0x20 : Nat) ∈ clientFunctionCodes ∧ (0x20 : Nat) ∉ specTaxonomyCodes) ∧
    (0x90 : Nat) ∈ clientFunctionCodes := by
  exact ⟨auxiliary_function_codes.2.2.2.2.2.2.2.2.1 0x20 (by decide),
    auxiliary_function_codes.2.2.2.2.2.2.2.2.2.1 0x90 (by decide)⟩

end VT
